import Mathlib

/- Shallow embedding of the weather_agent program (src/main.py): the pydantic
data model, the two OpenWeatherMap tools, tool dispatch, and the agent loop.

External effects are supplied explicitly: HTTP fetches, the wall clock and
time formatting live in an `Env` record, so each tool is a pure function of
its arguments and the environment.  Python exceptions are modelled with
`Except PyExc`: a tool body wrapped in a catch-all `except Exception` is a
total function returning `ToolResult`, while `process_tool_call`, which has
no handler of its own, returns `Except PyExc ToolResult` (an `.error` value
is an exception escaping the dispatch boundary).  Strings passed to
`str.strip()` are represented as `List Char`. -/

namespace WeatherAgent

/-- Whitespace recognised by Python's `str.strip()` (the ASCII subset). -/
def isPyWs (c : Char) : Bool :=
  c = ' ' || c = '\t' || c = '\n' || c = '\r' || c = '\x0b' || c = '\x0c'

/-- Model of Python `location.strip()`: remove leading and trailing
whitespace from a string represented as a character list. -/
def pyStrip (s : List Char) : List Char :=
  (s.dropWhile isPyWs).rdropWhile isPyWs

/-- Model of `class WeatherData(BaseModel)` (src/main.py lines 38-57).
Numeric fields are carried as integers (no claim depends on float
arithmetic); `sunrise`/`sunset`/`timestamp` hold the formatted strings
produced via the environment's clock/formatter. -/
structure WeatherData where
  location : String
  country : String
  temperature : Int
  feels_like : Int
  temp_min : Int
  temp_max : Int
  humidity : Int
  pressure : Int
  description : String
  main : String
  wind_speed : Int
  clouds : Int
  visibility : Int
  sunrise : String
  sunset : String
  units : String
  timestamp : String
deriving DecidableEq, Repr

/-- Model of `class ForecastItem(BaseModel)` (src/main.py lines 60-67). -/
structure ForecastItem where
  datetime : String
  temperature : Int
  description : String
  wind_speed : Int
  humidity : Int
deriving DecidableEq, Repr

/-- Model of `class ForecastData(BaseModel)` (src/main.py lines 70-75). -/
structure ForecastData where
  location : String
  country : String
  forecasts : List ForecastItem
deriving DecidableEq, Repr

/-- The structured payload a tool puts in `ToolResult.data`
(`weather_data.model_dump()` or `forecast_data.model_dump()`). -/
inductive ToolData where
  | weather (w : WeatherData)
  | forecast (f : ForecastData)
deriving DecidableEq, Repr

/-- Model of `class ToolResult(BaseModel)` (src/main.py lines 78-83):
`data` and `error` both default to `None`. -/
structure ToolResult where
  success : Bool
  data : Option ToolData := none
  error : Option String := none
deriving DecidableEq, Repr

/-- The fields of the provider JSON for `/weather` that
`get_current_weather` reads.  `visibility` is optional in the payload
(`data.get("visibility", 0)`). -/
structure CurrentPayload where
  name : String
  sys_country : String
  main_temp : Int
  main_feels_like : Int
  main_temp_min : Int
  main_temp_max : Int
  main_humidity : Int
  main_pressure : Int
  weather0_description : String
  weather0_main : String
  wind_speed : Int
  clouds_all : Int
  visibility : Option Int
  sys_sunrise : Int
  sys_sunset : Int
deriving DecidableEq, Repr

/-- One entry of the provider `/forecast` payload's `list` field. -/
structure ForecastEntry where
  dt_txt : String
  main_temp : Int
  weather0_description : String
  wind_speed : Int
  main_humidity : Int
deriving DecidableEq, Repr

/-- The fields of the provider JSON for `/forecast` that
`get_weather_forecast` reads. -/
structure ForecastPayload where
  city_name : String
  city_country : String
  list : List ForecastEntry
deriving DecidableEq, Repr

/-- Outcome of one HTTP fetch as seen by a tool body:
`requestException` covers `requests.exceptions.RequestException` (network
error, timeout, non-2xx status via `raise_for_status`); `otherException`
covers every other exception raised inside the `try` block (JSON decode
errors, missing payload keys, ...); `payload` is a well-formed response. -/
inductive FetchOutcome (α : Type) where
  | requestException (msg : String)
  | otherException (msg : String)
  | payload (p : α)
deriving DecidableEq, Repr

/-- The external world: the two HTTP endpoints keyed by the query string
(the stripped location) and units, `datetime.fromtimestamp(...).strftime`
formatting, and `datetime.now().strftime(...)`. -/
structure Env where
  fetchWeather : List Char → String → FetchOutcome CurrentPayload
  fetchForecast : List Char → String → FetchOutcome ForecastPayload
  formatTime : Int → String
  now : String

/-- Model of `get_current_weather` (src/main.py lines 91-145).  The body is
wrapped in `try/except RequestException/except Exception`, so every outcome
is converted to a `ToolResult` and the function is total. -/
def get_current_weather (location : List Char) (units : String) (env : Env) :
    ToolResult :=
  let location := pyStrip location
  match env.fetchWeather location units with
  | .payload d =>
      { success := true
        data := some (.weather
          { location := d.name
            country := d.sys_country
            temperature := d.main_temp
            feels_like := d.main_feels_like
            temp_min := d.main_temp_min
            temp_max := d.main_temp_max
            humidity := d.main_humidity
            pressure := d.main_pressure
            description := d.weather0_description
            main := d.weather0_main
            wind_speed := d.wind_speed
            clouds := d.clouds_all
            visibility := d.visibility.getD 0
            sunrise := env.formatTime d.sys_sunrise
            sunset := env.formatTime d.sys_sunset
            units := units
            timestamp := env.now }) }
  | .requestException e =>
      { success := false, error := some ("Failed to fetch weather data: " ++ e) }
  | .otherException e =>
      { success := false, error := some ("Unexpected error: " ++ e) }

/-- Conversion of one provider forecast entry into a `ForecastItem`
(src/main.py lines 173-181). -/
def mkForecastItem (item : ForecastEntry) : ForecastItem :=
  { datetime := item.dt_txt
    temperature := item.main_temp
    description := item.weather0_description
    wind_speed := item.wind_speed
    humidity := item.main_humidity }

/-- Model of `get_weather_forecast` (src/main.py lines 148-200).  The
series is capped by `data["list"][:40]`, modelled as `List.take 40`. -/
def get_weather_forecast (location : List Char) (units : String) (env : Env) :
    ToolResult :=
  let location := pyStrip location
  match env.fetchForecast location units with
  | .payload d =>
      { success := true
        data := some (.forecast
          { location := d.city_name
            country := d.city_country
            forecasts := (d.list.take 40).map mkForecastItem }) }
  | .requestException e =>
      { success := false, error := some ("Failed to fetch weather data: " ++ e) }
  | .otherException e =>
      { success := false, error := some ("Unexpected error: " ++ e) }

/-- A Python exception escaping a function. -/
inductive PyExc where
  | typeError (msg : String)
deriving DecidableEq, Repr

/-- The structured input dict of a tool-use block, as it matters for
binding `tool_func(**tool_input)` against
`def get_..._weather(location: str, units: str = "metric")`: an optional
`location` value, an optional `units` value, and any keys outside
`{location, units}`.  (Values are modelled as strings; a non-string value
would fail only inside the body, where the catch-all handler converts it
to a `ToolResult`.) -/
structure ToolInput where
  location : Option (List Char)
  units : Option String
  extraKeys : List String
deriving DecidableEq, Repr

/-- Python keyword-argument binding of `tool_func(**tool_input)` for both
tools' shared signature.  A missing `location` or an unexpected key raises
`TypeError` at the call site, before the tool body's `try` is entered. -/
def bindArgs (input : ToolInput) : Except PyExc (List Char × String) :=
  match input.extraKeys with
  | k :: _ => .error (.typeError ("unexpected keyword argument: " ++ k))
  | [] =>
    match input.location with
    | none => .error (.typeError "missing 1 required positional argument: location")
    | some loc => .ok (loc, input.units.getD "metric")

/-- Model of `process_tool_call` (src/main.py lines 266-272).  `TOOL_MAP`
has exactly the keys `get_current_weather` and `get_weather_forecast`;
dispatch itself has no exception handler, so a binding failure propagates
as `.error`. -/
def process_tool_call (env : Env) (tool_name : String) (tool_input : ToolInput) :
    Except PyExc ToolResult :=
  if tool_name = "get_current_weather" then
    match bindArgs tool_input with
    | .error e => .error e
    | .ok (loc, units) => .ok (get_current_weather loc units env)
  else if tool_name = "get_weather_forecast" then
    match bindArgs tool_input with
    | .error e => .error e
    | .ok (loc, units) => .ok (get_weather_forecast loc units env)
  else
    .ok { success := false, error := some ("Unknown tool: " ++ tool_name) }

/-- A content block of an assistant response.  Only `text` blocks carry a
`text` attribute (`hasattr(block, "text")`); `other` stands for any further
block kind without one. -/
inductive Block where
  | text (s : String)
  | tool_use (id : String) (name : String) (input : ToolInput)
  | other
deriving DecidableEq, Repr

/-- The `text` attribute of a block, when present. -/
def Block.getText : Block → Option String
  | .text s => some s
  | _ => none

/-- The id of a block, when it is a tool-use block. -/
def Block.toolUseId : Block → Option String
  | .tool_use id _ _ => some id
  | _ => none

/-- One element of the tool-results list built in the loop (src/main.py
lines 316-328): `tool_use_id` from the block, and the `json.dumps` of the
result's `success`/`data`/`error` fields, kept structurally. -/
structure ToolResultBlock where
  tool_use_id : String
  content : ToolResult
deriving DecidableEq, Repr

/-- A transcript message: the initial user text, an assistant turn, or the
user-role message carrying tool results. -/
inductive Message where
  | user (text : String)
  | assistant (content : List Block)
  | toolResults (results : List ToolResultBlock)
deriving DecidableEq, Repr

/-- One LLM response: its stop reason (a string, as in the SDK) and its
content blocks. -/
structure Response where
  stop_reason : String
  content : List Block
deriving DecidableEq, Repr

/-- The inner loop over `response.content` (src/main.py lines 303-328):
for each tool-use block, dispatch and append a result block; an exception
escaping `process_tool_call` aborts the whole iteration. -/
def processContent (env : Env) : List Block → Except PyExc (List ToolResultBlock)
  | [] => .ok []
  | b :: rest =>
    match b with
    | .tool_use id name input =>
      match process_tool_call env name input with
      | .error e => .error e
      | .ok r =>
        match processContent env rest with
        | .error e => .error e
        | .ok rs => .ok (⟨id, r⟩ :: rs)
    | _ => processContent env rest

/-- The `final_response` accumulation for `end_turn` (src/main.py lines
335-338): concatenate the text of every block that has one. -/
def concatTexts : List Block → String
  | [] => ""
  | b :: rest =>
    (match b with
     | .text s => s
     | _ => "") ++ concatTexts rest

/-- Concatenation of a list of strings, used to state what `concatTexts`
computes. -/
def concatAll (l : List String) : String :=
  l.foldr (fun a b => a ++ b) ""

/-- Model of the `for iteration in range(MAX_ITERATIONS)` loop of
`run_agent` (src/main.py lines 287-345), with the remaining iteration
count as fuel.  The result pairs the returned string with the number of
LLM round trips performed; exhausting the fuel returns the fixed
maximum-iterations message. -/
def runAgentAux (env : Env) (model : List Message → Response) :
    List Message → Nat → Except PyExc (String × Nat)
  | _, 0 =>
    .ok ("Maximum iterations reached. Please try again with a more specific query", 0)
  | messages, fuel + 1 =>
    let response := model messages
    if response.stop_reason = "tool_use" then
      match processContent env response.content with
      | .error e => .error e
      | .ok results =>
        match runAgentAux env model
            (messages ++ [.assistant response.content, .toolResults results]) fuel with
        | .error e => .error e
        | .ok (s, n) => .ok (s, n + 1)
    else if response.stop_reason = "end_turn" then
      .ok (concatTexts response.content, 1)
    else
      .ok ("Unexpected stop reason: " ++ response.stop_reason, 1)

/-- `MAX_ITERATIONS` (src/main.py line 31). -/
def MAX_ITERATIONS : Nat := 10

/-- Model of `run_agent` (src/main.py lines 275-345): start from the
single user message and run up to `MAX_ITERATIONS` round trips. -/
def run_agent (env : Env) (model : List Message → Response) (user_message : String) :
    Except PyExc (String × Nat) :=
  runAgentAux env model [.user user_message] MAX_ITERATIONS

/-- The exclusivity invariant on a `ToolResult`: on success the data field
is populated and the error field is absent, on failure the error field is
populated and the data field is `None`. -/
def resultInvariant (r : ToolResult) : Prop :=
  (r.success = true → r.data.isSome = true ∧ r.error = none) ∧
  (r.success = false → r.error.isSome = true ∧ r.data = none)

/-- A concrete environment in which every HTTP request fails with a
timeout. -/
def dummyEnv : Env :=
  { fetchWeather := fun _ _ => .requestException "timeout"
    fetchForecast := fun _ _ => .requestException "timeout"
    formatTime := fun _ => "00:00"
    now := "2026-01-01 00:00:00" }

/-- A structured input lacking the required `location` key. -/
def missingLocationInput : ToolInput :=
  { location := none, units := none, extraKeys := [] }

/-- A well-formed structured input. -/
def parisInput : ToolInput :=
  { location := some ['P', 'a', 'r', 'i', 's'], units := some "metric", extraKeys := [] }

/-- Assistant content mixing a text block and two tool calls. -/
def c2content : List Block :=
  [ .text "x",
    .tool_use "id1" "get_current_weather" parisInput,
    .tool_use "id2" "nope" missingLocationInput ]

/-- A model that always requests the tools of `c2content`. -/
def c2model : List Message → Response :=
  fun _ => { stop_reason := "tool_use", content := c2content }

/-- The results the loop builds from `c2content` under `dummyEnv`. -/
def c2results : List ToolResultBlock :=
  [ ⟨"id1", { success := false, data := none,
              error := some "Failed to fetch weather data: timeout" }⟩,
    ⟨"id2", { success := false, data := none,
              error := some "Unknown tool: nope" }⟩ ]

/-- A model that always stops with `tool_use` and empty content. -/
def loopModel : List Message → Response :=
  fun _ => { stop_reason := "tool_use", content := [] }

/-- A model that stops for `tool_use` on every round trip, with a single
call to the registered tool `get_current_weather` whose input lacks the
required `location` field. -/
def badModel : List Message → Response :=
  fun _ => { stop_reason := "tool_use",
             content := [.tool_use "idB" "get_current_weather" missingLocationInput] }

/-- A model that ends the turn with text blocks around a tool-use block. -/
def c4model : List Message → Response :=
  fun _ => { stop_reason := "end_turn",
             content := [.text "A", .tool_use "i" "t" missingLocationInput, .text "B"] }

/-- A model that requests a single unknown tool. -/
def c5model : List Message → Response :=
  fun _ => { stop_reason := "tool_use",
             content := [.tool_use "id9" "nope" missingLocationInput] }

/-- A model that stops with a reason outside the known set. -/
def c8model : List Message → Response :=
  fun _ => { stop_reason := "max_tokens", content := [] }

/-- A sample provider forecast entry. -/
def sampleEntry : ForecastEntry :=
  { dt_txt := "2026-01-01 00:00:00", main_temp := 0,
    weather0_description := "clear", wind_speed := 0, main_humidity := 0 }

/-- A provider forecast payload carrying 45 interval entries. -/
def payload45 : ForecastPayload :=
  { city_name := "c", city_country := "CC", list := List.replicate 45 sampleEntry }

/-- An environment whose forecast endpoint returns `payload45`. -/
def env45 : Env :=
  { fetchWeather := fun _ _ => .requestException "x"
    fetchForecast := fun _ _ => .payload payload45
    formatTime := fun _ => "00:00"
    now := "2026-01-01 00:00:00" }

/- Helper lemmas. -/

/-- A prefix of a `dropWhile p` result is unchanged by `dropWhile p`. -/
theorem dropWhile_self_of_front {α : Type} (p : α → Bool) (m l : List α)
    (h : m <+: l.dropWhile p) : m.dropWhile p = m := by
  cases m with
  | nil => rfl
  | cons a t =>
    obtain ⟨rest, hr⟩ := h
    have hne : l.dropWhile p ≠ [] := by
      rw [← hr]; simp
    have hhead : p ((l.dropWhile p).head hne) = false :=
      List.head_dropWhile_not p l hne
    have ha : (l.dropWhile p).head hne = a := by
      have : ((a :: t) ++ rest).head (by simp) = a := rfl
      simpa [hr] using this
    rw [ha] at hhead
    simp [List.dropWhile_cons, hhead]

/-- `pyStrip` is idempotent: stripping an already stripped string changes
nothing. -/
theorem pyStrip_idem (l : List Char) : pyStrip (pyStrip l) = pyStrip l := by
  unfold pyStrip
  rw [dropWhile_self_of_front isPyWs _ l ( List.rdropWhile_prefix isPyWs _),
    List.rdropWhile_idempotent]

/-- `concatTexts` concatenates exactly the `text`-bearing blocks, in
order. -/
theorem concatTexts_eq (c : List Block) :
    concatTexts c = concatAll (c.filterMap Block.getText) := by
  induction c with
  | nil => rfl
  | cons b rest ih =>
    cases b <;> simp [concatTexts, concatAll, Block.getText, List.filterMap_cons, ih]

/-- `processContent` yields one result block per tool-use block, whose ids
are the tool-use ids in emission order. -/
theorem processContent_ids (env : Env) :
    ∀ (content : List Block) (results : List ToolResultBlock),
      processContent env content = .ok results →
      results.map (fun r => r.tool_use_id) = content.filterMap Block.toolUseId := by
  intro content
  induction content with
  | nil =>
    intro results h
    simp only [processContent] at h
    cases h
    rfl
  | cons b rest ih =>
    intro results h
    cases b with
    | text s =>
      simp only [processContent] at h
      simpa [List.filterMap_cons, Block.toolUseId] using ih results h
    | other =>
      simp only [processContent] at h
      simpa [List.filterMap_cons, Block.toolUseId] using ih results h
    | tool_use id name input =>
      simp only [processContent] at h
      cases hp : process_tool_call env name input with
      | error e => rw [hp] at h; cases h
      | ok r =>
        rw [hp] at h
        cases hr : processContent env rest with
        | error e => rw [hr] at h; cases h
        | ok rs =>
          rw [hr] at h
          cases h
          simp [List.filterMap_cons, Block.toolUseId, ih rs hr]

/-- Under a model that always requests tools and contents that always
process cleanly, the loop burns all its fuel and returns the fixed
maximum-iterations message, with one round trip per unit of fuel. -/
theorem runAgentAux_exhausts (env : Env) (model : List Message → Response)
    (h1 : ∀ msgs, (model msgs).stop_reason = "tool_use")
    (h2 : ∀ msgs, ∃ rs, processContent env (model msgs).content = .ok rs) :
    ∀ (fuel : Nat) (msgs : List Message),
      runAgentAux env model msgs fuel =
        .ok ("Maximum iterations reached. Please try again with a more specific query",
          fuel) := by
  intro fuel
  induction fuel with
  | zero => intro msgs; rfl
  | succ n ih =>
    intro msgs
    obtain ⟨rs, hrs⟩ := h2 msgs
    simp [runAgentAux, h1 msgs, hrs, ih]

/- Claim theorems. -/

/-- C1, counterexample: dispatching `get_current_weather` on a structured
input that lacks the required `location` field raises (models the
`TypeError` from binding `tool_func(**tool_input)`); `process_tool_call`
does not catch it and does not return a `ToolResult` with
`success = false`, contrary to the claim. -/
theorem process_tool_call_raises_on_missing_location :
    process_tool_call dummyEnv "get_current_weather" missingLocationInput =
      .error (.typeError "missing 1 required positional argument: location") := by
  rfl

/-- C1, amended: for a registered tool name, dispatch lets an exception
escape exactly when keyword-argument binding of the structured input
fails (missing `location` or an unexpected key); for every input that
binds, the tool body's own catch-all handler has already converted any
failure into a `ToolResult`, so dispatch returns normally. -/
theorem process_tool_call_raises_iff_bad_binding (env : Env) (name : String)
    (input : ToolInput)
    (h : name = "get_current_weather" ∨ name = "get_weather_forecast") :
    (process_tool_call env name input).isOk = false ↔
      (input.location = none ∨ input.extraKeys ≠ []) := by
  rcases h with h | h <;> subst h <;>
    rcases hk : input.extraKeys with _ | ⟨k, ks⟩ <;>
      rcases hl : input.location with _ | loc <;>
        simp [process_tool_call, bindArgs, hk, hl, Except.isOk, Except.toBool]

/-- C1 witness: the amended theorem applied at the concrete malformed
input shows the exception escaping dispatch. -/
theorem process_tool_call_binding_witness :
    (process_tool_call dummyEnv "get_current_weather" missingLocationInput).isOk
      = false :=
  (process_tool_call_raises_iff_bad_binding dummyEnv "get_current_weather"
      missingLocationInput (Or.inl rfl)).mpr (Or.inl rfl)

/-- C2, counterexample: a `tool_use` response whose single tool-use block
names a registered tool but carries a malformed input (no `location`)
makes the dispatch loop raise: `processContent` yields no result list and
the loop iteration ends in the escaping exception, so no user-role
tool-results message is appended at all — against the claim's
unconditional one-message-with-N-results guarantee. -/
theorem malformed_input_appends_no_results :
    processContent dummyEnv
        [.tool_use "idB" "get_current_weather" missingLocationInput] =
      .error (.typeError "missing 1 required positional argument: location") ∧
    runAgentAux dummyEnv badModel [] 1 =
      .error (.typeError "missing 1 required positional argument: location") :=
  ⟨rfl, rfl⟩

/-- C2, amended: when an assistant response stops for `tool_use` and its
blocks all dispatch without raising — which is exactly when a tool-results
message comes to exist — the loop appends exactly one assistant message
and exactly one user-role message holding the result blocks, one per
tool-use block, the i-th result's `tool_use_id` being the i-th tool-use
block's id in emission order; then it continues with the next round
trip.  (If some dispatch raises, the exception propagates and no
user-role message is appended.) -/
theorem tool_results_match_tool_uses (env : Env) (model : List Message → Response)
    (messages : List Message) (fuel : Nat) (results : List ToolResultBlock)
    (h1 : (model messages).stop_reason = "tool_use")
    (h2 : processContent env (model messages).content = .ok results) :
    results.map (fun r => r.tool_use_id) =
      (model messages).content.filterMap Block.toolUseId ∧
    runAgentAux env model messages (fuel + 1) =
      (match runAgentAux env model
          (messages ++ [.assistant (model messages).content, .toolResults results])
          fuel with
       | .error e => .error e
       | .ok (s, n) => .ok (s, n + 1)) := by
  refine ⟨processContent_ids env _ results h2, ?_⟩
  simp [runAgentAux, h1, h2]

/-- C2 witness: two tool-use blocks around a text block produce exactly
two result blocks with matching ids, in order. -/
theorem tool_results_match_tool_uses_witness :
    c2results.map (fun r => r.tool_use_id) = c2content.filterMap Block.toolUseId :=
  (tool_results_match_tool_uses dummyEnv c2model [] 0 c2results rfl rfl).1

/-- C3, counterexample: `badModel` returns stop reason `tool_use` on
every round trip, satisfying the claim's antecedent, yet `run_agent`
aborts with the escaping `TypeError` during the very first round trip —
it does not perform 10 round trips and does not return the fixed
maximum-iterations message. -/
theorem always_tool_use_model_can_abort_early :
    (badModel [.user "q"]).stop_reason = "tool_use" ∧
    run_agent dummyEnv badModel "q" =
      .error (.typeError "missing 1 required positional argument: location") :=
  ⟨rfl, rfl⟩

/-- C3, amended: a model that stops for `tool_use` on every round trip
and whose contents all process without a dispatch exception drives
`run_agent` through exactly `MAX_ITERATIONS = 10` round trips, after
which it returns the fixed maximum-iterations message; there is no
eleventh round trip.  (A round trip whose dispatch raises instead aborts
the loop with that exception.) -/
theorem run_agent_exhausts_at_max_iterations (env : Env)
    (model : List Message → Response) (u : String)
    (h1 : ∀ msgs, (model msgs).stop_reason = "tool_use")
    (h2 : ∀ msgs, ∃ rs, processContent env (model msgs).content = .ok rs) :
    run_agent env model u =
      .ok ("Maximum iterations reached. Please try again with a more specific query",
        MAX_ITERATIONS) ∧
    MAX_ITERATIONS = 10 :=
  ⟨runAgentAux_exhausts env model h1 h2 MAX_ITERATIONS [.user u], rfl⟩

/-- C3 witness: the always-`tool_use` model with empty content exhausts
the loop after exactly 10 round trips. -/
theorem run_agent_exhausts_witness :
    run_agent dummyEnv loopModel "hi" =
      .ok ("Maximum iterations reached. Please try again with a more specific query",
        MAX_ITERATIONS) ∧
    MAX_ITERATIONS = 10 :=
  run_agent_exhausts_at_max_iterations dummyEnv loopModel "hi" (fun _ => rfl)
    (fun _ => ⟨[], rfl⟩)

/-- C4: on an `end_turn` response, `run_agent` returns the concatenation,
in block order, of the text of exactly the text-bearing blocks (none
yields the empty string), after a single round trip. -/
theorem run_agent_end_turn_concats_text_blocks (env : Env)
    (model : List Message → Response) (u : String)
    (h : (model [.user u]).stop_reason = "end_turn") :
    run_agent env model u =
      .ok (concatAll ((model [.user u]).content.filterMap Block.getText), 1) := by
  have h1 : (model [.user u]).stop_reason ≠ "tool_use" := by
    rw [h]; decide
  show runAgentAux env model [.user u] (9 + 1) = _
  simp [runAgentAux, h1, h, concatTexts_eq]

/-- C4 witness: content blocks `[text "A", tool_use, text "B"]` yield the
final text `"AB"`. -/
theorem run_agent_end_turn_witness :
    run_agent dummyEnv c4model "q" = .ok ("AB", 1) := by
  have h := run_agent_end_turn_concats_text_blocks dummyEnv c4model "q" rfl
  simpa [c4model, concatAll, Block.getText] using h

/-- C5: a tool name outside the registry makes dispatch return
`success = false` with an `Unknown tool` error (no exception), and the
loop feeds that error back in the tool-result message and proceeds to the
next round trip instead of terminating. -/
theorem unknown_tool_error_and_loop_continues (env : Env)
    (model : List Message → Response) (messages : List Message) (fuel : Nat)
    (id name : String) (input : ToolInput)
    (hname1 : name ≠ "get_current_weather")
    (hname2 : name ≠ "get_weather_forecast")
    (hresp : model messages =
      { stop_reason := "tool_use", content := [.tool_use id name input] }) :
    process_tool_call env name input =
      .ok { success := false, data := none,
            error := some ("Unknown tool: " ++ name) } ∧
    runAgentAux env model messages (fuel + 1) =
      (match runAgentAux env model
          (messages ++
            [.assistant [.tool_use id name input],
             .toolResults [⟨id, { success := false, data := none,
                                  error := some ("Unknown tool: " ++ name) }⟩]])
          fuel with
       | .error e => .error e
       | .ok (s, n) => .ok (s, n + 1)) := by
  have hp : process_tool_call env name input =
      .ok { success := false, data := none,
            error := some ("Unknown tool: " ++ name) } := by
    simp [process_tool_call, hname1, hname2]
  refine ⟨hp, ?_⟩
  simp [runAgentAux, hresp, processContent, hp]

/-- C5 witness: the unknown tool name `nope` produces the `Unknown tool`
error result. -/
theorem unknown_tool_witness :
    process_tool_call dummyEnv "nope" missingLocationInput =
      .ok { success := false, data := none,
            error := some ("Unknown tool: " ++ "nope") } :=
  (unknown_tool_error_and_loop_continues dummyEnv c5model [] 0 "id9" "nope"
      missingLocationInput (by decide) (by decide) rfl).1

/-- C6: on a well-formed forecast payload the tool keeps exactly the first
40 entries of the provider's list, in original order (`take 40`, no
resampling); with more than 40 entries the result has exactly 40, with at
most 40 it keeps the whole list. -/
theorem forecast_caps_at_forty (loc : List Char) (units : String) (env : Env)
    (p : ForecastPayload)
    (h : env.fetchForecast (pyStrip loc) units = .payload p) :
    get_weather_forecast loc units env =
      { success := true
        data := some (.forecast
          { location := p.city_name
            country := p.city_country
            forecasts := (p.list.take 40).map mkForecastItem })
        error := none } ∧
    (40 ≤ p.list.length → ((p.list.take 40).map mkForecastItem).length = 40) ∧
    (p.list.length ≤ 40 →
      (p.list.take 40).map mkForecastItem = p.list.map mkForecastItem) := by
  refine ⟨by simp [get_weather_forecast, h], ?_, ?_⟩
  · intro hlen
    simp [List.length_take, Nat.min_eq_left hlen]
  · intro hlen
    rw [List.take_of_length_le hlen]

/-- C6 witness: a 45-entry payload is capped to exactly 40 forecast
items. -/
theorem forecast_caps_at_forty_witness :
    ((payload45.list.take 40).map mkForecastItem).length = 40 :=
  (forecast_caps_at_forty [] "metric" env45 payload45 rfl).2.1 (by decide)

/-- C7: when the HTTP request fails (network error, timeout or non-2xx
status, all surfacing as `RequestException`), each tool returns
`success = false` with an error message carrying the
`Failed to fetch weather data` text; the tools are total, so no failure
escapes their boundary. -/
theorem fetch_failure_returns_error_result (loc : List Char) (units : String)
    (env : Env) (emsg : String) :
    (env.fetchWeather (pyStrip loc) units = .requestException emsg →
      get_current_weather loc units env =
        { success := false, data := none,
          error := some ("Failed to fetch weather data: " ++ emsg) }) ∧
    (env.fetchForecast (pyStrip loc) units = .requestException emsg →
      get_weather_forecast loc units env =
        { success := false, data := none,
          error := some ("Failed to fetch weather data: " ++ emsg) }) := by
  constructor <;> intro h <;>
    simp [get_current_weather, get_weather_forecast, h]

/-- C7 witness: under the always-timeout environment the current-weather
tool returns the failure result. -/
theorem fetch_failure_witness :
    get_current_weather [] "metric" dummyEnv =
      { success := false, data := none,
        error := some ("Failed to fetch weather data: " ++ "timeout") } :=
  (fetch_failure_returns_error_result [] "metric" dummyEnv "timeout").1 rfl

/-- C8: a stop reason outside `tool_use`/`end_turn` makes `run_agent`
return, as an ordinary value after that single round trip, a diagnostic
string naming the unexpected reason. -/
theorem unexpected_stop_reason_terminates (env : Env)
    (model : List Message → Response) (u : String)
    (h1 : (model [.user u]).stop_reason ≠ "tool_use")
    (h2 : (model [.user u]).stop_reason ≠ "end_turn") :
    run_agent env model u =
      .ok ("Unexpected stop reason: " ++ (model [.user u]).stop_reason, 1) := by
  show runAgentAux env model [.user u] (9 + 1) = _
  simp [runAgentAux, h1, h2]

/-- C8 witness: the stop reason `max_tokens` yields the diagnostic string
after one round trip. -/
theorem unexpected_stop_reason_witness :
    run_agent dummyEnv c8model "q" =
      .ok ("Unexpected stop reason: " ++ "max_tokens", 1) :=
  unexpected_stop_reason_terminates dummyEnv c8model "q" (by decide) (by decide)

/-- C9: every `ToolResult` the program constructs satisfies the
exclusivity invariant: the two weather tools on any input and
environment, and every result dispatch returns without raising. -/
theorem tool_result_exclusivity (env : Env) (loc : List Char) (units : String)
    (name : String) (input : ToolInput) (r : ToolResult) :
    resultInvariant (get_current_weather loc units env) ∧
    resultInvariant (get_weather_forecast loc units env) ∧
    (process_tool_call env name input = .ok r → resultInvariant r) := by
  have hc : ∀ (l : List Char) (u : String),
      resultInvariant (get_current_weather l u env) := by
    intro l u
    rcases hw : env.fetchWeather (pyStrip l) u with msg | msg | d <;>
      simp [get_current_weather, resultInvariant, hw]
  have hf : ∀ (l : List Char) (u : String),
      resultInvariant (get_weather_forecast l u env) := by
    intro l u
    rcases hw : env.fetchForecast (pyStrip l) u with msg | msg | d <;>
      simp [get_weather_forecast, resultInvariant, hw]
  refine ⟨hc loc units, hf loc units, ?_⟩
  intro h
  unfold process_tool_call at h
  by_cases h1 : name = "get_current_weather"
  · rw [if_pos h1] at h
    cases hb : bindArgs input with
    | error e => rw [hb] at h; cases h
    | ok lu =>
      obtain ⟨l, u⟩ := lu
      rw [hb] at h
      cases h
      exact hc l u
  · rw [if_neg h1] at h
    by_cases h2 : name = "get_weather_forecast"
    · rw [if_pos h2] at h
      cases hb : bindArgs input with
      | error e => rw [hb] at h; cases h
      | ok lu =>
        obtain ⟨l, u⟩ := lu
        rw [hb] at h
        cases h
        exact hf l u
    · rw [if_neg h2] at h
      cases h
      constructor
      · intro hs; cases hs
      · intro _; constructor <;> rfl

/-- C9 witness: the invariant holds of the result dispatch returns for an
unknown tool. -/
theorem tool_result_exclusivity_witness :
    resultInvariant { success := false, data := none,
                      error := some ("Unknown tool: " ++ "nope") } :=
  (tool_result_exclusivity dummyEnv [] "metric" "nope" missingLocationInput
      { success := false, data := none,
        error := some ("Unknown tool: " ++ "nope") }).2.2 (by rfl)

/-- C10: each tool strips surrounding whitespace from the location before
issuing the provider request, so a location and its stripped form are
indistinguishable: the tools return identical results on both. -/
theorem location_strip_invariance (loc : List Char) (units : String) (env : Env) :
    get_current_weather loc units env =
      get_current_weather (pyStrip loc) units env ∧
    get_weather_forecast loc units env =
      get_weather_forecast (pyStrip loc) units env := by
  constructor <;>
    simp [get_current_weather, get_weather_forecast, pyStrip_idem]

end WeatherAgent
